import Mathlib

/-!
Shallow embedding of the toxiproxy control-plane client (src/main.rs).

The client issues HTTP requests against a remote fault-injection service.
The wire transport is embedded as explicit oracle arguments: each operation
receives a function from the request it would issue (path, and body where one
is sent) to the decoded response or a transport error, and the embedding
records the requests an operation issues so that theorems can speak about the
request trace.  Rust panics (`expect`, `panic!` in the source) are embedded as
an explicit `panicked` outcome, Rust `Result<T, String>` as `Except String T`.
The remote service itself is excluded from the repository; where a claim needs
its behaviour it is modelled from the spec's external-interface table, and the
corresponding definitions say so in their doc comments.
-/

/-- Error message constant ERR_MISSING_HTTP_CLIENT of main.rs. -/
def ERR_MISSING_HTTP_CLIENT : String := "HTTP client not available"

/-- Rust alias `type ToxicValueType = u32`.  The client stores and forwards
these values without arithmetic, so no overflow can occur and Nat is a
faithful embedding. -/
abbrev ToxicValueType := Nat

/-- Outcome of a step that may abort the thread: a Rust panic (raised by
`expect` or an explicit panic in the source) or a returned value. -/
inductive PanicOr (α : Type) where
  | panicked (msg : String)
  | ret (a : α)
deriving DecidableEq

/-- Decidable equality for Except, needed so that concrete runs of the
embedded operations can be checked by the decide tactic. -/
instance {ε α : Type} [DecidableEq ε] [DecidableEq α] : DecidableEq (Except ε α) := fun x y =>
  match x, y with
  | .ok a, .ok b =>
    if h : a = b then isTrue (congrArg Except.ok h)
    else isFalse (fun hh => h (Except.ok.inj hh))
  | .error a, .error b =>
    if h : a = b then isTrue (congrArg Except.error h)
    else isFalse (fun hh => h (Except.error.inj hh))
  | .ok _, .error _ => isFalse (fun hh => Except.noConfusion hh)
  | .error _, .ok _ => isFalse (fun hh => Except.noConfusion hh)

/-- Rust Result::map_err specialised to string errors: rewrites the error
message, keeps a success unchanged. -/
def mapErr {α : Type} (f : String → String) : Except String α → Except String α
  | .ok a => .ok a
  | .error e => .error (f e)

/-- Boolean success test on a result value. -/
def exceptOk {α : Type} : Except String α → Bool
  | .ok _ => true
  | .error _ => false

/-- HashMap::insert on the association-list embedding of HashMap<String, V>:
replaces the value when the key is already present, otherwise appends the
binding at the end. -/
def mapInsert {V : Type} (k : String) (v : V) : List (String × V) → List (String × V)
  | [] => [(k, v)]
  | (k2, v2) :: rest => if k = k2 then (k, v) :: rest else (k2, v2) :: mapInsert k v rest

/-- The serializable fields of struct Toxic (main.rs): exactly the fields not
marked `#[serde(skip)]`.  This is what travels over the wire in either
direction. -/
structure ToxicData where
  name : String
  type : String
  stream : String
  toxicity : Rat
  attributes : List (String × ToxicValueType)
deriving DecidableEq

/-- struct Toxic of main.rs, including the two `#[serde(skip)]` fields
`client` (embedded as an optional connection identifier standing for the
Arc<Mutex<HttpClient>> reference) and `proxy_name`. -/
structure Toxic where
  name : String
  type : String
  stream : String
  toxicity : Rat
  attributes : List (String × ToxicValueType)
  client : Option Nat
  proxy_name : Option String
deriving DecidableEq

/-- Toxic::new of main.rs: the toxic's name is derived from type and stream by
`format!("{}_{}", type, stream)`; the skipped fields start out empty. -/
def Toxic.new (type stream : String) (toxicity : Rat)
    (attributes : List (String × ToxicValueType)) : Toxic :=
  { name := type ++ "_" ++ stream, type := type, stream := stream,
    toxicity := toxicity, attributes := attributes, client := none, proxy_name := none }

/-- Serialization of a Toxic: the `#[serde(skip)]` fields are dropped. -/
def Toxic.serialized (t : Toxic) : ToxicData :=
  { name := t.name, type := t.type, stream := t.stream,
    toxicity := t.toxicity, attributes := t.attributes }

/-- Deserialization of a Toxic: serde leaves every `#[serde(skip)]` field at
its default, so a decoded toxic is never bound to a connection or a proxy. -/
def ToxicData.deserialize (d : ToxicData) : Toxic :=
  { name := d.name, type := d.type, stream := d.stream, toxicity := d.toxicity,
    attributes := d.attributes, client := none, proxy_name := none }

/-- The serializable fields of struct Proxy (main.rs): everything except the
`#[serde(skip)]` field `client`. -/
structure ProxyData where
  name : String
  listen : String
  upstream : String
  enabled : Bool
  toxics : List ToxicData
deriving DecidableEq

/-- struct Proxy of main.rs, the `client` field embedded as an optional
connection identifier standing for the Arc<Mutex<HttpClient>> reference. -/
structure Proxy where
  name : String
  listen : String
  upstream : String
  enabled : Bool
  toxics : List Toxic
  client : Option Nat
deriving DecidableEq

/-- Proxy::new of main.rs: enabled, no toxics, no connection bound. -/
def Proxy.new (name listen upstream : String) : Proxy :=
  { name := name, listen := listen, upstream := upstream,
    enabled := true, toxics := [], client := none }

/-- Proxy::with_client of main.rs: binds the handle to a connection. -/
def Proxy.with_client (p : Proxy) (c : Nat) : Proxy := { p with client := some c }

/-- Serialization of a Proxy: the `client` field is dropped. -/
def Proxy.serialized (p : Proxy) : ProxyData :=
  { name := p.name, listen := p.listen, upstream := p.upstream,
    enabled := p.enabled, toxics := p.toxics.map Toxic.serialized }

/-- Deserialization of a Proxy: serde leaves the skipped `client` field at its
default, so a decoded proxy is never bound to a connection. -/
def ProxyData.deserialize (d : ProxyData) : Proxy :=
  { name := d.name, listen := d.listen, upstream := d.upstream, enabled := d.enabled,
    toxics := d.toxics.map ToxicData.deserialize, client := none }

/-- Proxy::update of main.rs: panics with ERR_MISSING_HTTP_CLIENT when the
handle holds no client, otherwise POSTs the raw payload to /proxies/name and
maps a transport error to the message used in the source. -/
def Proxy.update (p : Proxy) (post_with_data : String → String → Except String Unit)
    (payload : String) : PanicOr (Except String Unit) :=
  match p.client with
  | none => .panicked ERR_MISSING_HTTP_CLIENT
  | some _ =>
    .ret (mapErr (fun err => "<disable> has failed: " ++ err)
      (post_with_data ("/proxies/" ++ p.name) payload))

/-- JSON body serde_json produces for the one-entry map built in
Proxy::disable. -/
def enabledFalseBody : String := "\x7b\"enabled\":false\x7d"

/-- JSON body serde_json produces for the one-entry map built in
Proxy::enable. -/
def enabledTrueBody : String := "\x7b\"enabled\":true\x7d"

/-- Proxy::disable of main.rs: update with the serialized enabled=false map. -/
def Proxy.disable (p : Proxy) (post_with_data : String → String → Except String Unit) :
    PanicOr (Except String Unit) :=
  p.update post_with_data enabledFalseBody

/-- Proxy::enable of main.rs: update with the serialized enabled=true map. -/
def Proxy.enable (p : Proxy) (post_with_data : String → String → Except String Unit) :
    PanicOr (Except String Unit) :=
  p.update post_with_data enabledTrueBody

/-- Proxy::delete of main.rs: panics without a client, otherwise issues one
DELETE on /proxies/name (the error prefix "<disable>" is copied verbatim from
the source). -/
def Proxy.delete (p : Proxy) (del : String → Except String Unit) :
    PanicOr (Except String Unit) :=
  match p.client with
  | none => .panicked ERR_MISSING_HTTP_CLIENT
  | some _ =>
    .ret (mapErr (fun err => "<disable> has failed: " ++ err) (del ("/proxies/" ++ p.name)))

/-- Proxy::toxics of main.rs (named listToxics here because the structure
field `toxics` already uses the source name): panics without a client,
otherwise GETs /proxies/name/toxics and decodes the toxic list. -/
def Proxy.listToxics (p : Proxy) (get : String → Except String (List ToxicData)) :
    PanicOr (Except String (List Toxic)) :=
  match p.client with
  | none => .panicked ERR_MISSING_HTTP_CLIENT
  | some _ =>
    .ret (mapErr (fun err => "<proxies>.<toxics> has failed: " ++ err)
      ((get ("/proxies/" ++ p.name ++ "/toxics")).map (fun l => l.map ToxicData.deserialize)))

/-- Proxy::with_latency of main.rs: builds the attribute map by two
HashMap::insert calls, constructs the toxic through Toxic::new with type
"latency", POSTs it to /proxies/name/toxics, panics when the handle has no
client or when the POST fails, and returns the same handle together with the
request it issued. -/
def Proxy.with_latency (p : Proxy) (post_with_data : String → Toxic → Except String Unit)
    (stream : String) (latency jitter : ToxicValueType) (toxicity : Rat) :
    PanicOr ((String × Toxic) × Proxy) :=
  let attributes := mapInsert "jitter" jitter (mapInsert "latency" latency [])
  let toxic := Toxic.new "latency" stream toxicity attributes
  let path := "/proxies/" ++ p.name ++ "/toxics"
  match p.client with
  | none => .panicked ERR_MISSING_HTTP_CLIENT
  | some _ =>
    match post_with_data path toxic with
    | .error err => .panicked ("<proxies>.<toxics> creation has failed: " ++ err)
    | .ok _ => .ret ((path, toxic), p)

/-- Path built inside Proxy::delete_all_toxics for one toxic, copied verbatim
from the format string of main.rs line 283: note the dot between "toxics" and
the toxic name. -/
def deleteToxicPath (proxyName toxicName : String) : String :=
  "/proxies/" ++ proxyName ++ "/toxics." ++ toxicName

/-- The for-loop of Proxy::delete_all_toxics: issues one DELETE per toxic in
list order, and on the first transport failure returns the wrapped error at
once, issuing no further request.  The first component records the paths of
the DELETE requests actually issued, in order. -/
def deleteLoop (proxyName : String) (del : String → Except String Unit) :
    List Toxic → List String × Except String Unit
  | [] => ([], .ok ())
  | t :: rest =>
    let path := deleteToxicPath proxyName t.name
    match del path with
    | .ok _ =>
      let pr := deleteLoop proxyName del rest
      (path :: pr.1, pr.2)
    | .error e => ([path], .error ("<proxies>.<toxics> delete failed: " ++ e))

/-- Proxy::delete_all_toxics of main.rs: fetches the toxic list, runs the
delete loop, and wraps any error (from the fetch or from the loop) with
"cannot delete toxics: ".  The first component of the returned pair is the
trace of DELETE request paths issued. -/
def Proxy.delete_all_toxics (p : Proxy) (get : String → Except String (List ToxicData))
    (del : String → Except String Unit) : PanicOr (List String × Except String Unit) :=
  match p.listToxics get with
  | .panicked msg => .panicked msg
  | .ret (.error e) => .ret ([], .error ("cannot delete toxics: " ++ e))
  | .ret (.ok list) =>
    let pr := deleteLoop p.name del list
    .ret (pr.1, mapErr (fun e => "cannot delete toxics: " ++ e) pr.2)

/-- How the caller-supplied FnOnce closure passed to Proxy::apply terminates:
normally, or abnormally by a Rust panic carrying a message. -/
inductive ScenarioOutcome where
  | normal
  | abnormal (msg : String)
deriving DecidableEq

/-- Proxy::apply of main.rs: runs the closure, then calls delete_all_toxics.
The two statements are sequential with no unwind protection, so when the
closure terminates abnormally the panic propagates out of apply before
delete_all_toxics is reached and no cleanup request is issued. -/
def Proxy.apply (p : Proxy) (get : String → Except String (List ToxicData))
    (del : String → Except String Unit) (scenario : ScenarioOutcome) :
    PanicOr (List String × Except String Unit) :=
  match scenario with
  | .abnormal msg => .panicked msg
  | .normal => p.delete_all_toxics get del

/-- Toxiproxy::all of main.rs: GET /proxies decoded as a map from proxy name
to proxy; the transport-and-decode outcome is the oracle argument and the
error is wrapped with the message used in the source. -/
def Toxiproxy.all (getDecoded : Except String (List (String × ProxyData))) :
    Except String (List (String × ProxyData)) :=
  mapErr (fun err => "<proxies> has failed: " ++ err) getDecoded

/-- Toxiproxy::populate of main.rs: serializes the full proxy list, POSTs it
to /populate, decodes the response as a map from string to proxy list, takes
the "proxies" entry and defaults to the empty list when that key is absent.
The first component records the single request issued (path and serialized
body).  No connection is bound to the returned proxies: they are exactly what
deserialization produced. -/
def Toxiproxy.populate (proxies : List Proxy)
    (post_with_data : String → List ProxyData → Except String (List (String × List ProxyData))) :
    (String × List ProxyData) × Except String (List Proxy) :=
  let body := proxies.map Proxy.serialized
  ( ("/populate", body),
    match post_with_data "/populate" body with
    | .error e => .error ("<populate> has failed: " ++ e)
    | .ok m => .ok (((m.lookup "proxies").getD []).map ProxyData.deserialize) )

/-- HttpClient::is_alive of main.rs: the base URI is parsed and its authority
component extracted, each step panicking on failure with the message of the
corresponding `expect`; then a bare TCP connection to the authority is
attempted and its outcome collapsed to a boolean, failure mapping to false.
The `authority` argument is the parse outcome: none when the URI does not
parse, some none when it has no authority component, some (some addr)
otherwise. -/
def HttpClient.is_alive (authority : Option (Option String))
    (connect : String → Except String Unit) : PanicOr Bool :=
  match authority with
  | none => .panicked "Toxiproxy URI provided is not valid"
  | some none => .panicked "Invalid authority component"
  | some (some addr) =>
    .ret (match connect addr with
          | .ok _ => true
          | .error _ => false)

/-- Toxiproxy::is_running of main.rs: delegates to HttpClient::is_alive on the
shared client. -/
def Toxiproxy.is_running (authority : Option (Option String))
    (connect : String → Except String Unit) : PanicOr Bool :=
  HttpClient.is_alive authority connect

/-- Trace of DELETE request paths issued by one delete_all_toxics call (empty
when the call panics before issuing any). -/
def cleanupTrace (p : Proxy) (get : String → Except String (List ToxicData))
    (del : String → Except String Unit) : List String :=
  match p.delete_all_toxics get del with
  | .panicked _ => []
  | .ret pr => pr.1

/-- Toxiproxy::find_proxy of main.rs: takes the map returned by Toxiproxy::all,
removes the entry for the requested name, binds the found proxy to the shared
connection, calls delete_all_toxics on it discarding the result value (a
panic from the cleanup would still propagate), and returns the proxy; any
error from the lookup is collapsed to none by the final `.unwrap_or(None)`.
The first component of the returned pair records the cleanup request trace. -/
def Toxiproxy.find_proxy (connId : Nat)
    (getDecoded : Except String (List (String × ProxyData)))
    (name : String) (get : String → Except String (List ToxicData))
    (del : String → Except String Unit) :
    PanicOr (List String × Option Proxy) :=
  match Toxiproxy.all getDecoded with
  | .error _ => .ret ([], none)
  | .ok m =>
    match m.lookup name with
    | none => .ret ([], none)
    | some d =>
      let p := (ProxyData.deserialize d).with_client connId
      match p.delete_all_toxics get del with
      | .panicked msg => .panicked msg
      | .ret pr => .ret (pr.1, some p)

/-- Modelled from the spec: the remote toxiproxy service is excluded from the
repository as an external collaborator, so its state is modelled as the list
of proxies it knows, each with the toxics currently attached to it. -/
abbrev ServerState := List (String × List ToxicData)

/-- The delete-toxic endpoint documented in the spec's external-interface
table and in the header comment of main.rs: DELETE on /proxies, the proxy
name, /toxics, a slash, and the toxic name. -/
def specDeleteToxicEndpoint (proxyName toxicName : String) : String :=
  "/proxies/" ++ proxyName ++ "/toxics/" ++ toxicName

/-- Modelled from the spec: the server's handling of one DELETE request.  A
toxic is removed exactly when the request path is the documented delete-toxic
endpoint for it; a request on any other path deletes nothing. -/
def serverHandleDelete (s : ServerState) (path : String) : ServerState :=
  s.map (fun pr => (pr.1, pr.2.filter (fun t => path != specDeleteToxicEndpoint pr.1 t.name)))

/-- Modelled from the spec: the server processing a sequence of DELETE
requests in order. -/
def serverHandleDeletes (s : ServerState) (paths : List String) : ServerState :=
  paths.foldl serverHandleDelete s

/-- Modelled from the spec: GET on /proxies, the proxy name, /toxics returns
the toxics currently attached to that proxy. -/
def serverListToxics (s : ServerState) (proxyName : String) : List ToxicData :=
  (s.lookup proxyName).getD []

/-- The latency toxic the test scenario of main.rs attaches: type "latency",
stream "downstream", toxicity 1, attributes latency 2000 and jitter 0, as the
server stores and returns it. -/
def latencyToxicData : ToxicData :=
  { name := "latency_downstream", type := "latency", stream := "downstream",
    toxicity := 1, attributes := [("latency", 2000), ("jitter", 0)] }

/-- Server state with one proxy named "socket" carrying that toxic. -/
def demoServer : ServerState := [("socket", [latencyToxicData])]

/-- Decoded form of the "socket" proxy as Toxiproxy::all returns it, nested
toxics included. -/
def demoProxyData : ProxyData :=
  { name := "socket", listen := "127.0.0.1:2000", upstream := "127.0.0.1:2001",
    enabled := true, toxics := [latencyToxicData] }

/-- The "socket" proxy bound to connection 0, as find_proxy builds it. -/
def demoProxy : Proxy := (ProxyData.deserialize demoProxyData).with_client 0

/-- Toxic-listing oracle answering from demoServer, failing on any other
path. -/
def demoGet : String → Except String (List ToxicData) := fun path =>
  if path = "/proxies/socket/toxics" then .ok (serverListToxics demoServer "socket")
  else .error "404"

/-- Transport oracle on which every DELETE succeeds. -/
def alwaysOkDelete : String → Except String Unit := fun _ => .ok ()

/-- The path the cleanup loop actually builds for the demo toxic. -/
def buggyPath : String := "/proxies/socket/toxics.latency_downstream"

/-- C1: refuted on the code (code bug).  With the proxy "socket" carrying one
attached toxic "latency_downstream", a normally completing scenario, and a
transport on which every request succeeds, apply returns success having issued
exactly one DELETE — on the dot-separated path of main.rs line 283, not the
documented delete-toxic endpoint — so the server still lists the toxic
afterwards; and when the scenario terminates abnormally the panic propagates
out of apply before any cleanup request is issued.  Listing toxics after a
successful apply is therefore not empty, contrary to the claim. -/
theorem C1_apply_cleanup_not_guaranteed :
    demoProxy.apply demoGet alwaysOkDelete .normal = .ret ([buggyPath], .ok ()) ∧
    buggyPath ≠ specDeleteToxicEndpoint "socket" "latency_downstream" ∧
    serverListToxics (serverHandleDeletes demoServer [buggyPath]) "socket"
      = [latencyToxicData] ∧
    demoProxy.apply demoGet alwaysOkDelete (.abnormal "scenario panicked")
      = .panicked "scenario panicked" := by
  refine ⟨by decide, by decide, by decide, rfl⟩

/-- C4: refuted on the code (code bug).  find_proxy on the listing that
contains "socket" with one attached toxic does bind the returned proxy to the
connection, but its cleanup issues the DELETE on the dot-separated path of
main.rs line 283 and discards the result, so the server still lists the toxic
after find_proxy returns, and the returned snapshot itself still carries the
toxic — the returned proxy does not have zero toxics attached. -/
theorem C4_found_proxy_toxics_remain :
    Toxiproxy.find_proxy 0 (.ok [("socket", demoProxyData)]) "socket" demoGet alwaysOkDelete
      = .ret ([buggyPath], some demoProxy) ∧
    demoProxy.client = some 0 ∧
    serverListToxics (serverHandleDeletes demoServer [buggyPath]) "socket"
      = [latencyToxicData] ∧
    demoProxy.toxics ≠ [] := by
  refine ⟨by decide, rfl, by decide, by decide⟩

/-- C7: refuted on the code (code bug).  The path built by the cleanup phase
for the toxic "latency_downstream" of proxy "socket" separates the toxic name
with a dot, while the endpoint documented in the external-interface table and
in the header comment of main.rs separates it with a slash; the two differ. -/
theorem C7_delete_path_is_not_documented_endpoint :
    deleteToxicPath "socket" "latency_downstream"
      = "/proxies/socket/toxics.latency_downstream" ∧
    specDeleteToxicEndpoint "socket" "latency_downstream"
      = "/proxies/socket/toxics/latency_downstream" ∧
    deleteToxicPath "socket" "latency_downstream"
      ≠ specDeleteToxicEndpoint "socket" "latency_downstream" := by
  refine ⟨rfl, rfl, by decide⟩

/-- The DELETE path the cleanup loop builds for each listed toxic, in list
order. -/
def pathsOf (proxyName : String) (ts : List Toxic) : List String :=
  ts.map (fun t => deleteToxicPath proxyName t.name)

/-- Specification-side description of a stop-at-first-failure request
sequence: every path up to and including the first one on which the transport
fails, and all of them when none fails. -/
def issuedUntilFailure (del : String → Except String Unit) : List String → List String
  | [] => []
  | q :: rest =>
    match del q with
    | .ok _ => q :: issuedUntilFailure del rest
    | .error _ => [q]

/-- The request trace of the cleanup loop is exactly the stop-at-first-failure
sequence over the per-toxic paths. -/
theorem deleteLoop_trace_eq (name : String) (del : String → Except String Unit) :
    ∀ ts : List Toxic, (deleteLoop name del ts).1 = issuedUntilFailure del (pathsOf name ts)
  | [] => rfl
  | t :: rest => by
    have ih := deleteLoop_trace_eq name del rest
    cases h : del (deleteToxicPath name t.name) with
    | ok u => simp [deleteLoop, issuedUntilFailure, pathsOf, h, ih]
    | error e => simp [deleteLoop, issuedUntilFailure, pathsOf, h]

/-- The cleanup loop succeeds exactly when the transport accepts the DELETE on
every per-toxic path. -/
theorem deleteLoop_ok_iff (name : String) (del : String → Except String Unit) :
    ∀ ts : List Toxic,
      (exceptOk (deleteLoop name del ts).2 = true ↔
        ∀ q ∈ pathsOf name ts, exceptOk (del q) = true)
  | [] => by simp [deleteLoop, pathsOf, exceptOk]
  | t :: rest => by
    have ih := deleteLoop_ok_iff name del rest
    cases h : del (deleteToxicPath name t.name) with
    | ok u =>
      simp only [deleteLoop, h]
      rw [ih]
      simp [pathsOf, h, exceptOk]
    | error e =>
      simp only [deleteLoop, pathsOf, List.map_cons, h, exceptOk]
      constructor
      · intro hfalse; cases hfalse
      · intro hall
        have hq := hall (deleteToxicPath name t.name) (List.mem_cons_self _ _)
        rw [h] at hq
        simp [exceptOk] at hq

/-- C2: confirmed.  The cleanup phase issues one DELETE per listed toxic in
list order and stops at the first transport failure, issuing no further
request and no retry; it returns success exactly when every DELETE succeeds,
and on a bound proxy delete_all_toxics runs precisely this loop over the
fetched toxic list, surfacing the wrapped failure to the caller. -/
theorem C2_cleanup_stops_at_first_failure (name : String)
    (del : String → Except String Unit) (ts : List Toxic) :
    (deleteLoop name del ts).1 = issuedUntilFailure del (pathsOf name ts) ∧
    (exceptOk (deleteLoop name del ts).2 = true ↔
      ∀ q ∈ pathsOf name ts, exceptOk (del q) = true) ∧
    ∀ (ds : List ToxicData) (listen upstream : String) (enabled : Bool)
      (cached : List Toxic) (c : Nat),
      (Proxy.mk name listen upstream enabled cached (some c)).delete_all_toxics
          (fun _ => .ok ds) del
        = .ret ((deleteLoop name del (ds.map ToxicData.deserialize)).1,
            mapErr (fun e => "cannot delete toxics: " ++ e)
              (deleteLoop name del (ds.map ToxicData.deserialize)).2) :=
  ⟨deleteLoop_trace_eq name del ts, deleteLoop_ok_iff name del ts,
   fun _ _ _ _ _ _ => rfl⟩

/-- Transport oracle on which every DELETE fails. -/
def failingDelete : String → Except String Unit := fun _ => .error "connection reset"

/-- C3: counterexample.  A transport failure during the lookup makes
find_proxy return none exactly as a missing proxy does — the error is
collapsed by the final unwrap_or(None), not propagated; and a transport
failure during the pre-return cleanup is discarded: the proxy is still
returned as if nothing failed.  find_proxy therefore never fails on transport
failure, contrary to the claim. -/
theorem C3_transport_failure_not_propagated :
    Toxiproxy.find_proxy 0 (.error "connection refused") "socket" demoGet alwaysOkDelete
      = .ret ([], none) ∧
    Toxiproxy.find_proxy 0 (.ok [("socket", demoProxyData)]) "socket" demoGet failingDelete
      = .ret ([buggyPath], some demoProxy) := by
  refine ⟨rfl, by decide⟩

/-- C3: amended claim, proved.  find_proxy returns none both when no proxy
with the requested name exists in the listing and when a transport failure
occurs during the lookup; when the proxy is found it is returned bound to the
connection regardless of how the pre-return cleanup fared, the cleanup result
being discarded — so find_proxy itself has no failure outcome (a Rust panic
aside, which the bound handle cannot raise for a missing client). -/
theorem C3_find_proxy_never_fails (connId : Nat) (name e : String)
    (m : List (String × ProxyData))
    (g : String → Except String (List ToxicData)) (d : String → Except String Unit) :
    Toxiproxy.find_proxy connId (.error e) name g d = .ret ([], none) ∧
    Toxiproxy.find_proxy connId (.ok m) name g d =
      (match m.lookup name with
       | none => .ret ([], none)
       | some pd =>
         .ret (cleanupTrace ((ProxyData.deserialize pd).with_client connId) g d,
               some ((ProxyData.deserialize pd).with_client connId))) := by
  constructor
  · rfl
  · cases hl : m.lookup name with
    | none => simp [Toxiproxy.find_proxy, Toxiproxy.all, mapErr, hl]
    | some pd =>
      simp only [Toxiproxy.find_proxy, Toxiproxy.all, mapErr, hl]
      cases hD : ((ProxyData.deserialize pd).with_client connId).delete_all_toxics g d with
      | panicked msg =>
        exfalso
        revert hD
        simp only [Proxy.delete_all_toxics, Proxy.listToxics, Proxy.with_client,
          ProxyData.deserialize]
        cases g ("/proxies/" ++ pd.name ++ "/toxics") <;> simp [mapErr, Except.map]
      | ret pr => simp [hD, cleanupTrace]

/-- C5: counterexample.  A successful populate returns the decoded proxies
exactly as deserialization produced them, and a deserialized proxy carries no
connection binding — its client field is empty, so the returned values are
not bound to the Registry's connection as the claim states. -/
theorem C5_populate_returns_unbound_proxies :
    (Toxiproxy.populate [] (fun _ _ => .ok [("proxies", [demoProxyData])])).2
      = .ok [ProxyData.deserialize demoProxyData] ∧
    (ProxyData.deserialize demoProxyData).client = none := by
  refine ⟨by decide, rfl⟩

/-- C5: amended claim, proved.  populate sends the full proxy list, serialized,
in one POST to the bulk-create endpoint /populate; on success it returns the
server's canonical list of created proxies exactly as decoded — left unbound,
with no connection attached — and on any transport or decode failure it fails
with the wrapping error message. -/
theorem C5_populate_sends_full_list_returns_decoded (proxies : List Proxy) (e : String)
    (m : List (String × List ProxyData))
    (post2 : String → List ProxyData → Except String (List (String × List ProxyData))) :
    (Toxiproxy.populate proxies post2).1 = ("/populate", proxies.map Proxy.serialized) ∧
    (Toxiproxy.populate proxies (fun _ _ => .error e)).2
      = .error ("<populate> has failed: " ++ e) ∧
    (Toxiproxy.populate proxies (fun _ _ => .ok m)).2
      = .ok (((m.lookup "proxies").getD []).map ProxyData.deserialize) ∧
    ∀ q ∈ ((m.lookup "proxies").getD []).map ProxyData.deserialize, q.client = none := by
  refine ⟨rfl, rfl, rfl, ?_⟩
  intro q hq
  simp only [List.mem_map] at hq
  obtain ⟨dd, _, rfl⟩ := hq
  rfl

/-- C10: confirmed.  When the decoded populate response is an object without
the "proxies" key, the missing key is not treated as a decode failure:
populate returns success with the empty proxy list. -/
theorem C10_populate_missing_key_gives_empty_list (proxies : List Proxy)
    (post2 : String → List ProxyData → Except String (List (String × List ProxyData)))
    (m : List (String × List ProxyData))
    (hpost : post2 "/populate" (proxies.map Proxy.serialized) = .ok m)
    (hkey : m.lookup "proxies" = none) :
    (Toxiproxy.populate proxies post2).2 = .ok [] := by
  simp [Toxiproxy.populate, hpost, hkey]

/-- C10 witness: a concrete response object carrying only an unrelated key. -/
theorem C10_populate_missing_key_witness :
    (Toxiproxy.populate [] (fun _ _ => .ok [("other", [])])).2 = .ok [] :=
  C10_populate_missing_key_gives_empty_list [] (fun _ _ => .ok [("other", [])])
    [("other", [])] rfl (by decide)

/-- The toxic Proxy::with_latency builds for stream "downstream", latency
2000, jitter 0, toxicity 1: the attribute map is assembled by the two
HashMap::insert calls of the source. -/
def latencyToxic2000 : Toxic :=
  Toxic.new "latency" "downstream" 1 (mapInsert "jitter" 0 (mapInsert "latency" 2000 []))

/-- C6: confirmed.  Every toxic built by Toxic::new is named type, underscore,
stream; with_latency on stream "downstream" with latency 2000, jitter 0 and
toxicity 1 constructs a toxic of type "latency" named "latency_downstream"
with attributes latency 2000 and jitter 0, POSTs it to the create-toxic
endpoint of its proxy, and returns the same handle for chaining. -/
theorem C6_with_latency_attaches_latency_downstream
    (type stream : String) (tox : Rat) (attrs : List (String × ToxicValueType))
    (p : Proxy) (c : Nat) (hc : p.client = some c)
    (post2 : String → Toxic → Except String Unit)
    (hpost : post2 ("/proxies/" ++ p.name ++ "/toxics") latencyToxic2000 = .ok ()) :
    (Toxic.new type stream tox attrs).name = type ++ "_" ++ stream ∧
    p.with_latency post2 "downstream" 2000 0 1
      = .ret ((("/proxies/" ++ p.name ++ "/toxics"), latencyToxic2000), p) ∧
    latencyToxic2000.name = "latency_downstream" ∧
    latencyToxic2000.type = "latency" ∧
    latencyToxic2000.attributes = [("latency", 2000), ("jitter", 0)] := by
  refine ⟨rfl, ?_, by decide, by decide, by decide⟩
  have hpost2 : post2 ("/proxies/" ++ p.name ++ "/toxics")
      (Toxic.new "latency" "downstream" 1 (mapInsert "jitter" 0 (mapInsert "latency" 2000 [])))
      = .ok () := hpost
  simp only [Proxy.with_latency, hc, hpost2, latencyToxic2000]

/-- C6 witness: the bound demo proxy with a transport accepting the POST. -/
theorem C6_with_latency_witness :
    demoProxy.with_latency (fun _ _ => .ok ()) "downstream" 2000 0 1
      = .ret ((("/proxies/" ++ demoProxy.name ++ "/toxics"), latencyToxic2000), demoProxy) ∧
    latencyToxic2000.name = "latency_downstream" :=
  ⟨(C6_with_latency_attaches_latency_downstream "latency" "downstream" 1 []
      demoProxy 0 rfl (fun _ _ => .ok ()) rfl).2.1,
   (C6_with_latency_attaches_latency_downstream "latency" "downstream" 1 []
      demoProxy 0 rfl (fun _ _ => .ok ()) rfl).2.2.1⟩

/-- C8: confirmed.  On a handle whose configured URI parses to an authority,
is_running delegates to HttpClient::is_alive, always returns a plain boolean
(it has no other outcome), and returns false whenever the connection attempt
to the endpoint fails — a connectivity failure is collapsed, never raised. -/
theorem C8_is_running_delegates_and_collapses_failure (addr : String)
    (connect : String → Except String Unit) (e : String)
    (hconn : connect addr = .error e) :
    Toxiproxy.is_running (some (some addr)) connect
      = HttpClient.is_alive (some (some addr)) connect ∧
    (∃ b, Toxiproxy.is_running (some (some addr)) connect = .ret b) ∧
    Toxiproxy.is_running (some (some addr)) connect = .ret false := by
  refine ⟨rfl, ⟨_, rfl⟩, ?_⟩
  simp [Toxiproxy.is_running, HttpClient.is_alive, hconn]

/-- Connection oracle on which every connection attempt is refused. -/
def refusedConnect : String → Except String Unit := fun _ => .error "connection refused"

/-- C8 witness: the default endpoint with every connection attempt refused. -/
theorem C8_is_running_witness :
    Toxiproxy.is_running (some (some "127.0.0.1:8474")) refusedConnect = .ret false :=
  (C8_is_running_delegates_and_collapses_failure "127.0.0.1:8474" refusedConnect
    "connection refused" rfl).2.2

/-- The panic message of a failed toxic creation can never coincide with the
missing-client panic message: the prefix alone is already longer. -/
theorem creation_failed_msg_ne (e : String) :
    "<proxies>.<toxics> creation has failed: " ++ e ≠ ERR_MISSING_HTTP_CLIENT := by
  intro h
  have hlen := congrArg String.length h
  rw [String.length_append] at hlen
  have h1 : ("<proxies>.<toxics> creation has failed: ").length = 40 := rfl
  have h2 : ERR_MISSING_HTTP_CLIENT.length = 25 := rfl
  rw [h1, h2] at hlen
  omega

/-- C9: confirmed.  On a handle without a connection binding, every lifecycle
operation — update, enable, disable, delete, toxic listing, with_latency and
apply — aborts with the missing-client panic instead of returning a
recoverable error; on a handle bound to a connection, none of these
operations can reach that abort: each returns a value, except with_latency
whose only remaining panic is the distinct creation-failure message. -/
theorem C9_unbound_handle_operations_abort (p : Proxy)
    (post2 : String → String → Except String Unit) (payload : String)
    (postT : String → Toxic → Except String Unit)
    (g : String → Except String (List ToxicData)) (d : String → Except String Unit)
    (stream : String) (lat jit : ToxicValueType) (tox : Rat) :
    (p.client = none →
      p.update post2 payload = .panicked ERR_MISSING_HTTP_CLIENT ∧
      p.enable post2 = .panicked ERR_MISSING_HTTP_CLIENT ∧
      p.disable post2 = .panicked ERR_MISSING_HTTP_CLIENT ∧
      p.delete d = .panicked ERR_MISSING_HTTP_CLIENT ∧
      p.listToxics g = .panicked ERR_MISSING_HTTP_CLIENT ∧
      p.with_latency postT stream lat jit tox = .panicked ERR_MISSING_HTTP_CLIENT ∧
      p.apply g d .normal = .panicked ERR_MISSING_HTTP_CLIENT) ∧
    (∀ c, p.client = some c →
      (∃ r, p.update post2 payload = .ret r) ∧
      (∃ r, p.enable post2 = .ret r) ∧
      (∃ r, p.disable post2 = .ret r) ∧
      (∃ r, p.delete d = .ret r) ∧
      (∃ r, p.listToxics g = .ret r) ∧
      p.with_latency postT stream lat jit tox ≠ .panicked ERR_MISSING_HTTP_CLIENT ∧
      (∃ r, p.apply g d .normal = .ret r)) := by
  constructor
  · intro h
    refine ⟨?_, ?_, ?_, ?_, ?_, ?_, ?_⟩
    · simp [Proxy.update, h]
    · simp [Proxy.enable, Proxy.update, h]
    · simp [Proxy.disable, Proxy.update, h]
    · simp [Proxy.delete, h]
    · simp [Proxy.listToxics, h]
    · simp [Proxy.with_latency, h]
    · simp [Proxy.apply, Proxy.delete_all_toxics, Proxy.listToxics, h]
  · intro c hc
    refine ⟨?_, ?_, ?_, ?_, ?_, ?_, ?_⟩
    · simp only [Proxy.update, hc]
      exact ⟨_, rfl⟩
    · simp only [Proxy.enable, Proxy.update, hc]
      exact ⟨_, rfl⟩
    · simp only [Proxy.disable, Proxy.update, hc]
      exact ⟨_, rfl⟩
    · simp only [Proxy.delete, hc]
      exact ⟨_, rfl⟩
    · simp only [Proxy.listToxics, hc]
      exact ⟨_, rfl⟩
    · simp only [Proxy.with_latency, hc]
      cases postT ("/proxies/" ++ p.name ++ "/toxics")
          (Toxic.new "latency" stream tox (mapInsert "jitter" jit (mapInsert "latency" lat []))) with
      | error err =>
        intro hcontra
        exact creation_failed_msg_ne err (PanicOr.panicked.inj hcontra)
      | ok u => intro hcontra; cases hcontra
    · simp only [Proxy.apply, Proxy.delete_all_toxics, Proxy.listToxics, hc]
      cases g ("/proxies/" ++ p.name ++ "/toxics") with
      | ok ds => exact ⟨_, rfl⟩
      | error e2 => exact ⟨_, rfl⟩

/-- The "socket" proxy as a purely declarative value, no connection bound. -/
def unboundDemoProxy : Proxy := Proxy.new "socket" "127.0.0.1:2000" "127.0.0.1:2001"

/-- C9 witness: the declarative proxy aborts on update with the missing-client
message, while the bound demo proxy's update returns a value. -/
theorem C9_unbound_handle_witness :
    unboundDemoProxy.update (fun _ _ => .ok ()) enabledTrueBody
      = .panicked ERR_MISSING_HTTP_CLIENT ∧
    (∃ r, demoProxy.update (fun _ _ => .ok ()) enabledTrueBody = .ret r) :=
  ⟨((C9_unbound_handle_operations_abort unboundDemoProxy (fun _ _ => .ok ()) enabledTrueBody
      (fun _ _ => .ok ()) demoGet alwaysOkDelete "downstream" 2000 0 1).1 rfl).1,
   ((C9_unbound_handle_operations_abort demoProxy (fun _ _ => .ok ()) enabledTrueBody
      (fun _ _ => .ok ()) demoGet alwaysOkDelete "downstream" 2000 0 1).2 0 rfl).1⟩
